import Mathlib

/-
Verification of the VGA text streaming driver
(src/hardware/vga_textstream.cpp, include/vga_textstream.h).

The driver is shallowly embedded: byte values and machine integers become
`Nat` (with explicit `% 2^w` where the C++ narrows or masks), the fixed
lookup tables are copied verbatim, and each C++ member function becomes a
pure Lean function over an explicit state record.
-/

set_option autoImplicit false
set_option maxRecDepth 8000

namespace TextStream

/-- A text cell: one CP437 character byte and one VGA attribute byte.
Mirrors `struct TextCell` in include/vga_textstream.h; both fields are
`uint8_t`, equality is field-wise. -/
structure TextCell where
  character : Nat
  «attribute» : Nat
  deriving DecidableEq, Repr

/-- Cursor position and visibility, mirroring `struct TextCursor`
(`uint16_t row, col; bool visible`). -/
structure TextCursor where
  row : Nat
  col : Nat
  visible : Bool
  deriving DecidableEq, Repr

/-- A screen grid, addressed row-major; cells outside the effective
`rows × cols` extent are simply never touched by the renderer. -/
abbrev Grid := Nat → Nat → TextCell

/-- An emitted frame: channel id and payload bytes.  This is the
frame-level view of `SendMessage` (channel, payload) pairs. -/
abbrev Frame := Nat × List Nat

/-- The `cp437_to_unicode[256]` table of vga_textstream.cpp, verbatim. -/
def cp437Table : List Nat :=
  [0x0000, 0x263A, 0x263B, 0x2665, 0x2666, 0x2663, 0x2660, 0x2022,
   0x25D8, 0x25CB, 0x25D9, 0x2642, 0x2640, 0x266A, 0x266B, 0x263C,
   0x25BA, 0x25C4, 0x2195, 0x203C, 0x00B6, 0x00A7, 0x25AC, 0x21A8,
   0x2191, 0x2193, 0x2192, 0x2190, 0x221F, 0x2194, 0x25B2, 0x25BC,
   0x0020, 0x0021, 0x0022, 0x0023, 0x0024, 0x0025, 0x0026, 0x0027,
   0x0028, 0x0029, 0x002A, 0x002B, 0x002C, 0x002D, 0x002E, 0x002F,
   0x0030, 0x0031, 0x0032, 0x0033, 0x0034, 0x0035, 0x0036, 0x0037,
   0x0038, 0x0039, 0x003A, 0x003B, 0x003C, 0x003D, 0x003E, 0x003F,
   0x0040, 0x0041, 0x0042, 0x0043, 0x0044, 0x0045, 0x0046, 0x0047,
   0x0048, 0x0049, 0x004A, 0x004B, 0x004C, 0x004D, 0x004E, 0x004F,
   0x0050, 0x0051, 0x0052, 0x0053, 0x0054, 0x0055, 0x0056, 0x0057,
   0x0058, 0x0059, 0x005A, 0x005B, 0x005C, 0x005D, 0x005E, 0x005F,
   0x0060, 0x0061, 0x0062, 0x0063, 0x0064, 0x0065, 0x0066, 0x0067,
   0x0068, 0x0069, 0x006A, 0x006B, 0x006C, 0x006D, 0x006E, 0x006F,
   0x0070, 0x0071, 0x0072, 0x0073, 0x0074, 0x0075, 0x0076, 0x0077,
   0x0078, 0x0079, 0x007A, 0x007B, 0x007C, 0x007D, 0x007E, 0x2302,
   0x00C7, 0x00FC, 0x00E9, 0x00E2, 0x00E4, 0x00E0, 0x00E5, 0x00E7,
   0x00EA, 0x00EB, 0x00E8, 0x00EF, 0x00EE, 0x00EC, 0x00C4, 0x00C5,
   0x00C9, 0x00E6, 0x00C6, 0x00F4, 0x00F6, 0x00F2, 0x00FB, 0x00F9,
   0x00FF, 0x00D6, 0x00DC, 0x00A2, 0x00A3, 0x00A5, 0x20A7, 0x0192,
   0x00E1, 0x00ED, 0x00F3, 0x00FA, 0x00F1, 0x00D1, 0x00AA, 0x00BA,
   0x00BF, 0x2310, 0x00AC, 0x00BD, 0x00BC, 0x00A1, 0x00AB, 0x00BB,
   0x2591, 0x2592, 0x2593, 0x2502, 0x2524, 0x2561, 0x2562, 0x2556,
   0x2555, 0x2563, 0x2551, 0x2557, 0x255D, 0x255C, 0x255B, 0x2510,
   0x2514, 0x2534, 0x252C, 0x251C, 0x2500, 0x253C, 0x255E, 0x255F,
   0x255A, 0x2554, 0x2569, 0x2566, 0x2560, 0x2550, 0x256C, 0x2567,
   0x2568, 0x2564, 0x2565, 0x2559, 0x2558, 0x2552, 0x2553, 0x256B,
   0x256A, 0x2518, 0x250C, 0x2588, 0x2584, 0x258C, 0x2590, 0x2580,
   0x03B1, 0x00DF, 0x0393, 0x03C0, 0x03A3, 0x03C3, 0x00B5, 0x03C4,
   0x03A6, 0x0398, 0x03A9, 0x03B4, 0x221E, 0x03C6, 0x03B5, 0x2229,
   0x2261, 0x00B1, 0x2265, 0x2264, 0x2320, 0x2321, 0x00F7, 0x2248,
   0x00B0, 0x2219, 0x00B7, 0x221A, 0x207F, 0x00B2, 0x25A0, 0x00A0]

/-- `cp437_to_unicode[ch]` for a character byte `ch < 256`. -/
def cp437Map (ch : Nat) : Nat := cp437Table.getD ch 0

/-- The `vga_fg[16]` foreground-colour table, verbatim. -/
def vga_fg : List Nat := [30, 34, 32, 36, 31, 35, 33, 37, 90, 94, 92, 96, 91, 95, 93, 97]

/-- The `vga_bg[8]` background-colour table, verbatim. -/
def vga_bg : List Nat := [40, 44, 42, 46, 41, 45, 43, 47]

/-- The `ascii_scancode[128]` ASCII-to-scancode table, verbatim. -/
def ascii_scancode : List Nat :=
  [0x00, 0x1E, 0x30, 0x2E, 0x20, 0x12, 0x21, 0x22, 0x0E, 0x0F, 0x1C, 0x25, 0x26, 0x1C, 0x31, 0x18,
   0x19, 0x10, 0x13, 0x1F, 0x14, 0x16, 0x2F, 0x11, 0x2D, 0x15, 0x2C, 0x01, 0x2B, 0x1B, 0x07, 0x0C,
   0x39, 0x02, 0x28, 0x04, 0x05, 0x06, 0x08, 0x28, 0x0A, 0x0B, 0x09, 0x0D, 0x33, 0x0C, 0x34, 0x35,
   0x0B, 0x02, 0x03, 0x04, 0x05, 0x06, 0x07, 0x08, 0x09, 0x0A, 0x27, 0x27, 0x33, 0x0D, 0x34, 0x35,
   0x03, 0x1E, 0x30, 0x2E, 0x20, 0x12, 0x21, 0x22, 0x23, 0x17, 0x24, 0x25, 0x26, 0x32, 0x31, 0x18,
   0x19, 0x10, 0x13, 0x1F, 0x14, 0x16, 0x2F, 0x11, 0x2D, 0x15, 0x2C, 0x1A, 0x2B, 0x1B, 0x07, 0x0C,
   0x29, 0x1E, 0x30, 0x2E, 0x20, 0x12, 0x21, 0x22, 0x23, 0x17, 0x24, 0x25, 0x26, 0x32, 0x31, 0x18,
   0x19, 0x10, 0x13, 0x1F, 0x14, 0x16, 0x2F, 0x11, 0x2D, 0x15, 0x2C, 0x1A, 0x2B, 0x1B, 0x29, 0x0E]

/-
Frame transport (VGATextStream::SendMessage / VGATextStream::ReadMessage).
-/

/-- Wire-level encoding performed by `VGATextStream::SendMessage`:
a 4-byte header (channel id, 24-bit big-endian payload length) followed by
the payload.  When `len > 0xFFFFFF` the function returns before writing
anything, so nothing is transmitted.  The `% 256` on the channel mirrors
the `static_cast<uint8_t>(channel)`. -/
def sendMessageBytes (channel : Nat) (payload : List Nat) : List Nat :=
  if payload.length > 0xFFFFFF then []
  else
    [channel % 256,
     payload.length / 65536 % 256,
     payload.length / 256 % 256,
     payload.length % 256] ++ payload

/-- Wire-level decoding performed by `VGATextStream::ReadMessage`: read a
4-byte header (fail if fewer than 4 bytes are available), recover the
24-bit big-endian length, then read exactly that many payload bytes
(fail if the stream ends first). -/
def readMessage (wire : List Nat) : Option (Nat × List Nat) :=
  match wire with
  | c :: h1 :: h2 :: h3 :: rest =>
      let len := h1 * 65536 + h2 * 256 + h3
      if len ≤ rest.length then some (c, rest.take len) else none
  | _ => none

/-- C1: framing round-trip.  For every channel id `c < 256` and payload
`p` with `|p| ≤ 0xFFFFFF`, encoding as `SendMessage` does and decoding as
`ReadMessage` does yields exactly `(c, p)`; and for every payload longer
than `0xFFFFFF`, `SendMessage` transmits nothing at all. -/
theorem framing_roundtrip :
    (∀ (c : Nat) (p : List Nat), c < 256 → p.length ≤ 0xFFFFFF →
      readMessage (sendMessageBytes c p) = some (c, p)) ∧
    (∀ (c : Nat) (p : List Nat), p.length > 0xFFFFFF →
      sendMessageBytes c p = []) := by
  constructor
  · intro c p hc hp
    have hnot : ¬ p.length > 0xFFFFFF := by omega
    simp only [sendMessageBytes, if_neg hnot, readMessage, List.cons_append,
      List.nil_append]
    have hlen : p.length / 65536 % 256 * 65536 + p.length / 256 % 256 * 256 +
        p.length % 256 = p.length := by omega
    rw [hlen]
    simp [Nat.mod_eq_of_lt hc, List.take_length]
  · intro c p hp
    simp [sendMessageBytes, hp]

/-- Witness for C1 at concrete inputs: channel 1 with payload `[65]`
round-trips, and a payload of length `0x1000000` is refused. -/
theorem framing_roundtrip_witness :
    readMessage (sendMessageBytes 1 [65]) = some (1, [65]) ∧
    sendMessageBytes 2 (List.replicate 0x1000000 0) = [] := by
  refine ⟨framing_roundtrip.1 1 [65] (by decide) (by decide),
          framing_roundtrip.2 2 (List.replicate 0x1000000 0) ?_⟩
  rw [List.length_replicate]
  decide

/-
ANSI output generation (GenerateTextOutput and the Emit* helpers).
-/

/-- Decimal digit bytes of `n`, most significant first, with explicit
recursion fuel (`fuel ≥ number of digits` suffices); models the `%d`
conversions done by `snprintf` in the Emit* helpers. -/
def decDigits : Nat → Nat → List Nat
  | 0, _ => []
  | fuel + 1, n => if n < 10 then [48 + n] else decDigits fuel (n / 10) ++ [48 + n % 10]

/-- ASCII decimal representation of `n` (`snprintf "%d"`). -/
def natDecBytes (n : Nat) : List Nat := decDigits (n + 1) n

/-- UTF-8 encoding of a BMP scalar `u < 0x10000`, exactly as coded in
`VGATextStream::EmitCharacter` (1, 2 or 3 bytes). -/
def utf8Bytes (u : Nat) : List Nat :=
  if u < 0x80 then [u]
  else if u < 0x800 then [0xC0 + u / 64, 0x80 + u % 64]
  else [0xE0 + u / 4096, 0x80 + u / 64 % 64, 0x80 + u % 64]

/-- The renderer emission state: the `text_buffer_` being built plus the
`ansi_attr_` / `ansi_row_` / `ansi_col_` members (0xFF and −1 are the
"unknown" sentinels set by `Invalidate`). -/
structure GenState where
  buf : List Nat
  attr : Nat
  arow : Int
  acol : Int
  deriving DecidableEq, Repr

/-- `VGATextStream::EmitMoveCursor`: append `ESC [ <row+1> ; <col+1> H`
and record the new position. -/
def emitMoveCursor (row col : Nat) (s : GenState) : GenState :=
  { s with
    buf := s.buf ++ [0x1B, 0x5B] ++ natDecBytes (row + 1) ++ [0x3B] ++
           natDecBytes (col + 1) ++ [0x48]
    arow := (row : Int)
    acol := (col : Int) }

/-- `VGATextStream::EmitSetAttribute`: append `ESC [ 0 ; <fg> ; <bg> m`
(with `;5` inserted before `m` when the blink bit 0x80 is set) and record
the attribute.  `a % 16` is `attr & 0x0F`, `a / 16 % 8` is
`(attr >> 4) & 0x07`, and `a / 128 % 2 = 1` is `(attr & 0x80) != 0`. -/
def emitSetAttribute (a : Nat) (s : GenState) : GenState :=
  let fg := vga_fg.getD (a % 16) 0
  let bg := vga_bg.getD (a / 16 % 8) 0
  let blink := a / 128 % 2 = 1
  { s with
    buf := s.buf ++ [0x1B, 0x5B, 0x30, 0x3B] ++ natDecBytes fg ++ [0x3B] ++
           natDecBytes bg ++ (if blink then [0x3B, 0x35] else []) ++ [0x6D]
    attr := a }

/-- `VGATextStream::EmitCharacter`: append the UTF-8 encoding of the
CP437 translation of `ch`, then advance the virtual column, wrapping to
the next row at `cols`. -/
def emitCharacter (cols : Nat) (ch : Nat) (s : GenState) : GenState :=
  if s.acol + 1 ≥ (cols : Int) then
    { s with buf := s.buf ++ utf8Bytes (cp437Map ch), acol := 0, arow := s.arow + 1 }
  else
    { s with buf := s.buf ++ utf8Bytes (cp437Map ch), acol := s.acol + 1 }

/-- `VGATextStream::EmitClearScreen`: hide cursor (`ESC [?25l`), clear
(`ESC [2J`), home (`ESC [H`); the virtual position becomes (0,0). -/
def emitClearScreen (s : GenState) : GenState :=
  { s with
    buf := s.buf ++ [0x1B, 0x5B, 0x3F, 0x32, 0x35, 0x6C] ++
           [0x1B, 0x5B, 0x32, 0x4A, 0x1B, 0x5B, 0x48]
    arow := 0
    acol := 0 }

/-- `VGATextStream::EmitCursorVisibility`: `ESC [?25h` or `ESC [?25l`. -/
def emitCursorVisibility (visible : Bool) (s : GenState) : GenState :=
  { s with buf := s.buf ++ [0x1B, 0x5B, 0x3F, 0x32, 0x35, if visible then 0x68 else 0x6C] }

/-- The guarded SGR idiom used by both branches of
`VGATextStream::GenerateTextOutput`: emit an SGR only when the cell's
attribute differs from the last emitted `ansi_attr_`. -/
def sgrStep (a : Nat) (g : GenState) : GenState :=
  if a ≠ g.attr then emitSetAttribute a g else g

/-- One cell of the full-redraw inner loop of
`VGATextStream::GenerateTextOutput`: the guarded SGR, then the
character. -/
def fullCellStep (cols : Nat) (cell : TextCell) (s : GenState) : GenState :=
  emitCharacter cols cell.character (sgrStep cell.attribute s)

/-- The trailing-blank scan of the full-redraw path: the last column
index in `[0, n)` whose cell is not a space on a black background
(`character == 0x20 && (attribute & 0x70) == 0`), or `none` when the
whole row is trivial (C++ `last_col == -1`). -/
def lastColAux (g : Grid) (row : Nat) : Nat → Option Nat
  | 0 => none
  | n + 1 =>
      if (g row n).character = 0x20 ∧ (g row n).attribute / 16 % 8 = 0 then
        lastColAux g row n
      else some n

/-- `last_col` of a full-redraw row as the C++ `int` (−1 when all
trailing-trivial). -/
def lastCol (g : Grid) (row cols : Nat) : Int :=
  match lastColAux g row cols with
  | none => -1
  | some n => (n : Int)

/-- One row of the full-redraw path: the inter-row attribute reset and
CRLF, the cells up to `last_col`, and the end-of-line attribute reset
guarded by `last_col < cols - 1`. -/
def fullRow (cols : Nat) (g : Grid) (row : Nat) (s : GenState) : GenState :=
  let s1 :=
    if row > 0 then
      let s0 := if s.attr ≠ 0x07 then emitSetAttribute 0x07 s else s
      { s0 with buf := s0.buf ++ [0x0D, 0x0A] }
    else s
  let lc := lastCol g row cols
  let s2 := (List.range (lc + 1).toNat).foldl (fun t col => fullCellStep cols (g row col) t) s1
  if s2.attr ≠ 0x07 ∧ lc < (cols : Int) - 1 then emitSetAttribute 0x07 s2 else s2

/-- The full-redraw branch of `VGATextStream::GenerateTextOutput`:
clear screen, reset attribute to 0x07, emit all rows, and set the
virtual position to `(rows−1, 0)`. -/
def fullRedraw (rows cols : Nat) (g : Grid) (s : GenState) : GenState :=
  let s1 := emitClearScreen s
  let s2 := emitSetAttribute 0x07 s1
  let s3 := (List.range rows).foldl (fun t row => fullRow cols g row t) s2
  { s3 with arow := (rows : Int) - 1, acol := 0 }

/-- The differential branch's loop state: emission state plus the local
`write_row` / `write_col` head (initialised to −1). -/
structure DiffSt where
  gs : GenState
  wrow : Int
  wcol : Int
  deriving DecidableEq, Repr

/-- The cursor-repositioning step of the differential branch: emit a
cursor move only when the write head is not already at `(row, col)`. -/
def diffMoveStep (row col : Nat) (d : DiffSt) : GenState :=
  if (row : Int) ≠ d.wrow ∨ (col : Int) ≠ d.wcol then emitMoveCursor row col d.gs else d.gs

/-- One cell of the differential branch of
`VGATextStream::GenerateTextOutput`: when `current != previous`, move the
cursor if the write head is elsewhere, emit an SGR if the attribute
differs from the last emitted one, emit the character, and advance the
head (wrapping at `cols`). -/
def diffCell (cols : Nat) (cur prev : Grid) (row col : Nat) (d : DiffSt) : DiffSt :=
  if cur row col ≠ prev row col then
    { gs := emitCharacter cols (cur row col).character
              (sgrStep (cur row col).attribute (diffMoveStep row col d))
      wrow := if (col : Int) + 1 ≥ (cols : Int) then (row : Int) + 1 else (row : Int)
      wcol := if (col : Int) + 1 ≥ (cols : Int) then 0 else (col : Int) + 1 }
  else d

/-- The differential branch: walk all cells row-major. -/
def diffUpdate (rows cols : Nat) (cur prev : Grid) (s : GenState) : GenState :=
  ((List.range rows).foldl
      (fun d row => (List.range cols).foldl (fun d2 col => diffCell cols cur prev row col d2) d)
      ⟨s, -1, -1⟩).gs

/-- The cursor block at the end of `VGATextStream::GenerateTextOutput`:
when the cursor changed, move first (if visible), then adjust
visibility (if it changed). -/
def cursorUpdate (cursor pcursor : TextCursor) (s : GenState) : GenState :=
  if cursor ≠ pcursor then
    let s1 := if cursor.visible then emitMoveCursor cursor.row cursor.col s else s
    if cursor.visible ≠ pcursor.visible then emitCursorVisibility cursor.visible s1 else s1
  else s

/-- `VGATextStream::GenerateTextOutput` as a pure function: clears
`text_buffer_`, takes the full-redraw branch when `full` (the value of
`force_redraw_` read at entry) and the differential branch otherwise,
then runs the cursor block.  The result's `buf` is the TEXT_OUT payload
handed to `FlushTextOutput`. -/
def generateTextOutput (rows cols : Nat) (cur prev : Grid) (cursor pcursor : TextCursor)
    (full : Bool) (attr0 : Nat) (arow0 acol0 : Int) : GenState :=
  let s0 : GenState := ⟨[], attr0, arow0, acol0⟩
  let s1 := if full then fullRedraw rows cols cur s0 else diffUpdate rows cols cur prev s0
  cursorUpdate cursor pcursor s1

/-- `VGATextStream::FlushTextOutput`: send nothing when the buffer is
empty, else one TEXT_OUT (channel 1) frame — `SendMessage` itself also
requires a connected client and a payload within the 24-bit limit. -/
def flushTextOutput (connected : Bool) (buf : List Nat) : List Frame :=
  if buf = [] then []
  else if connected = true ∧ buf.length ≤ 0xFFFFFF then [(1, buf)] else []

/-- A fold whose step function fixes every state is the identity. -/
theorem foldl_fixed {α β : Type} (f : β → α → β) (h : ∀ b x, f b x = b) :
    ∀ (l : List α) (b : β), l.foldl f b = b
  | [], _ => rfl
  | a :: l, b => by rw [List.foldl_cons, h b a]; exact foldl_fixed f h l b

/-- C3: diff idempotence.  With `force_redraw` false, every cell of
`current` equal to the corresponding cell of `previous`, and the cursor
unchanged, `GenerateTextOutput` leaves `text_buffer_` empty and
`FlushTextOutput` sends no TEXT_OUT frame. -/
theorem diff_idempotence (rows cols : Nat) (cur prev : Grid) (cursor pcursor : TextCursor)
    (connected : Bool) (attr0 : Nat) (arow0 acol0 : Int)
    (hcell : ∀ r c, cur r c = prev r c) (hcur : cursor = pcursor) :
    (generateTextOutput rows cols cur prev cursor pcursor false attr0 arow0 acol0).buf = [] ∧
    flushTextOutput connected
      (generateTextOutput rows cols cur prev cursor pcursor false attr0 arow0 acol0).buf = [] := by
  subst hcur
  have hdc : ∀ (row col : Nat) (d : DiffSt), diffCell cols cur prev row col d = d := by
    intro row col d
    simp [diffCell, hcell row col]
  have hrow : ∀ (row : Nat) (d : DiffSt),
      (List.range cols).foldl (fun d2 col => diffCell cols cur prev row col d2) d = d := by
    intro row d
    exact foldl_fixed _ (fun b x => hdc row x b) _ _
  have hdiff : ∀ s : GenState, diffUpdate rows cols cur prev s = s := by
    intro s
    unfold diffUpdate
    rw [foldl_fixed _ (fun b row => hrow row b)]
  have hbuf : (generateTextOutput rows cols cur prev cursor cursor false attr0 arow0 acol0).buf = [] := by
    simp [generateTextOutput, hdiff, cursorUpdate]
  exact ⟨hbuf, by rw [hbuf]; rfl⟩

/-- Witness for C3 at a concrete 2×2 screen where nothing changed. -/
theorem diff_idempotence_witness :
    (generateTextOutput 2 2 (fun _ _ => ⟨0x41, 0x07⟩) (fun _ _ => ⟨0x41, 0x07⟩)
        ⟨0, 1, true⟩ ⟨0, 1, true⟩ false 0x07 0 1).buf = [] ∧
    flushTextOutput true
      (generateTextOutput 2 2 (fun _ _ => ⟨0x41, 0x07⟩) (fun _ _ => ⟨0x41, 0x07⟩)
        ⟨0, 1, true⟩ ⟨0, 1, true⟩ false 0x07 0 1).buf = [] :=
  diff_idempotence 2 2 _ _ _ _ true 0x07 0 1 (fun _ _ => rfl) rfl

/-- Number of non-overlapping CR LF (`0x0D 0x0A`) byte pairs in a list. -/
def crlfCount : List Nat → Nat
  | [] => 0
  | 13 :: 10 :: rest => crlfCount rest + 1
  | _ :: rest => crlfCount rest

/-- The all-blank 80×25-class screen: every cell is a space with the
default attribute 0x07. -/
def blankGrid : Grid := fun _ _ => ⟨0x20, 0x07⟩

/-- The TEXT_OUT payload produced by `GenerateTextOutput` for a full
redraw of a blank 25×80 screen with the cursor at (0,0) visible (the
previous cursor still unknown/hidden, as on a fresh connection). -/
def c4Payload : List Nat :=
  (generateTextOutput 25 80 blankGrid blankGrid ⟨0, 0, true⟩ ⟨0, 0, false⟩
    true 0xFF (-1) (-1)).buf

/-- C4: full-redraw frame for a blank 25-row screen.  The payload begins
with hide-cursor, clear-screen, home and the SGR for attribute 0x07,
contains exactly 24 CR LF pairs, and ends with show-cursor. -/
theorem full_redraw_blank_screen :
    c4Payload.take 23 =
      [0x1B, 0x5B, 0x3F, 0x32, 0x35, 0x6C, 0x1B, 0x5B, 0x32, 0x4A, 0x1B, 0x5B, 0x48,
       0x1B, 0x5B, 0x30, 0x3B, 0x33, 0x37, 0x3B, 0x34, 0x30, 0x6D] ∧
    crlfCount c4Payload = 24 ∧
    c4Payload.drop (c4Payload.length - 6) = [0x1B, 0x5B, 0x3F, 0x32, 0x35, 0x68] := by
  decide

/-- The screen of C7: identical to `blankGrid` except at row 2, column 3,
which holds character 0x41 with attribute 0x1F. -/
def singleCellGrid : Grid := fun r c => if r = 2 ∧ c = 3 then ⟨0x41, 0x1F⟩ else ⟨0x20, 0x07⟩

/-- The TEXT_OUT payload produced by the differential branch for the
single changed cell of C7 (cursor unchanged, render sentinels unknown). -/
def c7Payload : List Nat :=
  (generateTextOutput 25 80 singleCellGrid blankGrid ⟨0, 0, true⟩ ⟨0, 0, true⟩
    false 0xFF (-1) (-1)).buf

/-- C7: single-cell differential update.  The payload is exactly
cursor-move to row 3 / column 4 (1-based), the SGR for attribute 0x1F
(bright white on blue), and the character `A`. -/
theorem single_cell_diff :
    c7Payload =
      [0x1B, 0x5B, 0x33, 0x3B, 0x34, 0x48,
       0x1B, 0x5B, 0x30, 0x3B, 0x39, 0x37, 0x3B, 0x34, 0x34, 0x6D,
       0x41] := by
  decide

/-- `EmitCharacter` never changes the recorded attribute. -/
theorem emitCharacter_attr (cols ch : Nat) (s : GenState) :
    (emitCharacter cols ch s).attr = s.attr := by
  unfold emitCharacter
  split <;> rfl

/-- `EmitCharacter` appends exactly the UTF-8 bytes of the character. -/
theorem emitCharacter_buf (cols ch : Nat) (s : GenState) :
    (emitCharacter cols ch s).buf = s.buf ++ utf8Bytes (cp437Map ch) := by
  unfold emitCharacter
  split <;> rfl

/-- After the guarded SGR step, the recorded attribute is `a`. -/
theorem sgrStep_attr (a : Nat) (g : GenState) : (sgrStep a g).attr = a := by
  unfold sgrStep
  by_cases h : a ≠ g.attr
  · rw [if_pos h]
    rfl
  · rw [if_neg h]
    exact (not_not.mp h).symm

/-- The guarded SGR step is the identity when the attribute is already
the last emitted one. -/
theorem sgrStep_of_eq (a : Nat) (g : GenState) (h : a = g.attr) : sgrStep a g = g := by
  unfold sgrStep
  rw [if_neg (by simp [h])]

/-- The cursor-repositioning step is the identity on the emission state
when the write head is already at `(row, col)`. -/
theorem diffMoveStep_of_eq (row col : Nat) (d : DiffSt)
    (hr : d.wrow = (row : Int)) (hw : d.wcol = (col : Int)) :
    diffMoveStep row col d = d.gs := by
  unfold diffMoveStep
  rw [if_neg (by rw [hr, hw]; simp)]

/-- After the full-redraw cell step, the recorded attribute is the
cell's attribute. -/
theorem fullCellStep_attr (cols : Nat) (cell : TextCell) (s : GenState) :
    (fullCellStep cols cell s).attr = cell.attribute := by
  unfold fullCellStep
  rw [emitCharacter_attr, sgrStep_attr]

/-- When the cell's attribute equals the last emitted one, the
full-redraw cell step emits no SGR: only the character bytes. -/
theorem fullCellStep_buf_of_attr_eq (cols : Nat) (cell : TextCell) (s : GenState)
    (h : cell.attribute = s.attr) :
    (fullCellStep cols cell s).buf = s.buf ++ utf8Bytes (cp437Map cell.character) := by
  unfold fullCellStep
  rw [sgrStep_of_eq _ _ h, emitCharacter_buf]

/-- C9: attribute stickiness.  In the full-redraw path, after a cell has
been emitted with attribute `a`, the next cell with the same attribute
produces no SGR (only its character bytes are appended); in the
differential path, a changed cell whose attribute equals the last
emitted `ansi_attr_` and whose position matches the write head likewise
appends only its character bytes. -/
theorem attribute_stickiness (cols : Nat) (s : GenState) (c1 c2 : TextCell)
    (cur prev : Grid) (row col : Nat) (d : DiffSt)
    (hattr : c1.attribute = c2.attribute)
    (hne : cur row col ≠ prev row col)
    (hca : (cur row col).attribute = d.gs.attr)
    (hr : d.wrow = (row : Int)) (hw : d.wcol = (col : Int)) :
    (fullCellStep cols c2 (fullCellStep cols c1 s)).buf =
      (fullCellStep cols c1 s).buf ++ utf8Bytes (cp437Map c2.character) ∧
    (diffCell cols cur prev row col d).gs.buf =
      d.gs.buf ++ utf8Bytes (cp437Map (cur row col).character) := by
  constructor
  · exact fullCellStep_buf_of_attr_eq cols c2 (fullCellStep cols c1 s)
      (by rw [fullCellStep_attr, hattr])
  · unfold diffCell
    rw [if_pos hne]
    show (emitCharacter cols (cur row col).character
        (sgrStep (cur row col).attribute (diffMoveStep row col d))).buf = _
    rw [diffMoveStep_of_eq row col d hr hw, sgrStep_of_eq _ _ hca, emitCharacter_buf]

/-- Witness for C9 at concrete cells and a concrete diff state. -/
theorem attribute_stickiness_witness :
    (fullCellStep 80 ⟨0x42, 0x07⟩ (fullCellStep 80 ⟨0x41, 0x07⟩ ⟨[], 0xFF, -1, -1⟩)).buf =
      (fullCellStep 80 ⟨0x41, 0x07⟩ ⟨[], 0xFF, -1, -1⟩).buf ++
        utf8Bytes (cp437Map 0x42) ∧
    (diffCell 80 (fun _ _ => ⟨0x41, 0x07⟩) (fun _ _ => ⟨0x42, 0x07⟩) 0 0
        ⟨⟨[], 0x07, -1, -1⟩, 0, 0⟩).gs.buf =
      [] ++ utf8Bytes (cp437Map 0x41) :=
  attribute_stickiness 80 ⟨[], 0xFF, -1, -1⟩ ⟨0x41, 0x07⟩ ⟨0x42, 0x07⟩
    (fun _ _ => ⟨0x41, 0x07⟩) (fun _ _ => ⟨0x42, 0x07⟩) 0 0
    ⟨⟨[], 0x07, -1, -1⟩, 0, 0⟩ rfl (by decide) rfl rfl rfl

/-
Keyboard input parsing (VGATextStream::ProcessInputByte / InjectKey).
-/

/-- The four parser states of the input tokenizer
(`enum class InputState`). -/
inductive InputState where
  | NORMAL
  | ESC
  | CSI
  | SS3
  deriving DecidableEq, Repr

/-- The tokenizer state: `input_state_` plus the `csi_params_`
accumulator (kept as its byte values). -/
structure InputParserSt where
  state : InputState
  csi : List Nat
  deriving DecidableEq, Repr

/-- `VGATextStream::InjectKey`: the 16-bit BIOS keycode
`(scancode << 8) | ascii`, with the ASCII half zeroed for extended
keys. -/
def injectKey (scancode ascii : Nat) (extended : Bool) : Nat :=
  if extended then scancode % 256 * 256 else scancode % 256 * 256 + ascii % 256

/-- `atoi` restricted to the bytes that can occur in `csi_params_`
(only 0x30..0x3F are ever accumulated): parse leading decimal digits,
stopping at the first non-digit; the empty string yields 0. -/
def atoiBytes : List Nat → Nat → Nat
  | [], acc => acc
  | b :: rest, acc =>
      if 0x30 ≤ b ∧ b ≤ 0x39 then atoiBytes rest (acc * 10 + (b - 0x30)) else acc

/-- The `case '~'` parameter dispatch of the CSI final-byte switch:
Home/Insert/Delete/End/PgUp/PgDn and the function keys; unlisted
parameter values inject nothing. -/
def csiTildeDispatch (param : Nat) : List Nat :=
  if param = 1 then [injectKey 0x47 0 true]
  else if param = 2 then [injectKey 0x52 0 true]
  else if param = 3 then [injectKey 0x53 0 true]
  else if param = 4 then [injectKey 0x4F 0 true]
  else if param = 5 then [injectKey 0x49 0 true]
  else if param = 6 then [injectKey 0x51 0 true]
  else if param = 11 then [injectKey 0x3B 0 false]
  else if param = 12 then [injectKey 0x3C 0 false]
  else if param = 13 then [injectKey 0x3D 0 false]
  else if param = 14 then [injectKey 0x3E 0 false]
  else if param = 15 then [injectKey 0x3F 0 false]
  else if param = 17 then [injectKey 0x40 0 false]
  else if param = 18 then [injectKey 0x41 0 false]
  else if param = 19 then [injectKey 0x42 0 false]
  else if param = 20 then [injectKey 0x43 0 false]
  else if param = 21 then [injectKey 0x44 0 false]
  else if param = 23 then [injectKey 0x85 0 false]
  else if param = 24 then [injectKey 0x86 0 false]
  else []

/-- The CSI final-byte switch (`case InputState::CSI`, final bytes
0x40..0x7E): arrows, Home/End, and the `~` parameter dispatch; other
finals inject nothing. -/
def csiDispatch (b : Nat) (params : List Nat) : List Nat :=
  if b = 0x41 then [injectKey 0x48 0 true]
  else if b = 0x42 then [injectKey 0x50 0 true]
  else if b = 0x43 then [injectKey 0x4D 0 true]
  else if b = 0x44 then [injectKey 0x4B 0 true]
  else if b = 0x48 then [injectKey 0x47 0 true]
  else if b = 0x46 then [injectKey 0x4F 0 true]
  else if b = 0x7E then csiTildeDispatch (atoiBytes params 0)
  else []

/-- The SS3 dispatch (`case InputState::SS3`): arrows and F1..F4;
anything else injects nothing. -/
def ss3Dispatch (b : Nat) : List Nat :=
  if b = 0x41 then [injectKey 0x48 0 true]
  else if b = 0x42 then [injectKey 0x50 0 true]
  else if b = 0x43 then [injectKey 0x4D 0 true]
  else if b = 0x44 then [injectKey 0x4B 0 true]
  else if b = 0x50 then [injectKey 0x3B 0 false]
  else if b = 0x51 then [injectKey 0x3C 0 false]
  else if b = 0x52 then [injectKey 0x3D 0 false]
  else if b = 0x53 then [injectKey 0x3E 0 false]
  else []

/-- `VGATextStream::ProcessInputByte`: one byte through the tokenizer,
returning the new parser state and the list of keycodes posted to
`BIOS_AddKeyToBuffer` (the ESC Alt+letter arm posts `scancode << 8`
directly, bypassing `InjectKey`). -/
def processInputByte (p : InputParserSt) (b : Nat) : InputParserSt × List Nat :=
  match p.state with
  | InputState.NORMAL =>
      if b = 0x1B then ({ p with state := InputState.ESC }, [])
      else if b = 0x7F then (p, [injectKey 0x0E 0x08 false])
      else if b < 0x20 then
        if b = 0x0D then (p, [injectKey 0x1C 0x0D false])
        else if b = 0x09 then (p, [injectKey 0x0F 0x09 false])
        else if b = 0x08 then (p, [injectKey 0x0E 0x08 false])
        else if 1 ≤ b ∧ b ≤ 26 then
          (p, [injectKey (ascii_scancode.getD (0x61 + b - 1) 0) b false])
        else (p, [])
      else if b < 0x80 then (p, [injectKey (ascii_scancode.getD b 0) b false])
      else (p, [])
  | InputState.ESC =>
      if b = 0x5B then ({ p with state := InputState.CSI, csi := [] }, [])
      else if b = 0x4F then ({ p with state := InputState.SS3 }, [])
      else if 0x61 ≤ b ∧ b ≤ 0x7A then
        ({ p with state := InputState.NORMAL }, [ascii_scancode.getD b 0 % 256 * 256])
      else ({ p with state := InputState.NORMAL }, [injectKey 0x01 0x1B false])
  | InputState.CSI =>
      if 0x30 ≤ b ∧ b ≤ 0x3F then ({ p with csi := p.csi ++ [b] }, [])
      else if 0x40 ≤ b ∧ b ≤ 0x7E then
        ({ p with csi := [], state := InputState.NORMAL }, csiDispatch b p.csi)
      else ({ p with state := InputState.NORMAL }, [])
  | InputState.SS3 =>
      ({ p with state := InputState.NORMAL }, ss3Dispatch b)

/-- Feed a byte sequence through the tokenizer, accumulating the
injected keycodes (this is `HandleKeyboardInput`'s loop). -/
def processBytes (p : InputParserSt) (bs : List Nat) : InputParserSt × List Nat :=
  bs.foldl (fun acc b =>
    ((processInputByte acc.1 b).1, acc.2 ++ (processInputByte acc.1 b).2)) (p, [])

/-- C8: tokenizer keycode mapping.  From NORMAL with an empty parameter
buffer, `1B 5B 41` injects exactly `0x4800` (Up), `1B 5B 32 30 7E`
injects exactly `0x4300` (F9), and the single byte `0x01` injects
exactly `0x1E01` (Ctrl-A). -/
theorem tokenizer_keycodes :
    (processBytes ⟨InputState.NORMAL, []⟩ [0x1B, 0x5B, 0x41]).2 = [0x4800] ∧
    (processBytes ⟨InputState.NORMAL, []⟩ [0x1B, 0x5B, 0x32, 0x30, 0x7E]).2 = [0x4300] ∧
    (processBytes ⟨InputState.NORMAL, []⟩ [0x01]).2 = [0x1E01] := by
  decide

/-- C10: high-byte input is ignored.  Any byte in 0x80..0xFF fed in
NORMAL state injects nothing and leaves the parser state and the CSI
parameter buffer unchanged. -/
theorem high_byte_ignored (b : Nat) (params : List Nat)
    (h1 : 0x80 ≤ b) (h2 : b ≤ 0xFF) :
    processInputByte ⟨InputState.NORMAL, params⟩ b = (⟨InputState.NORMAL, params⟩, []) := by
  unfold processInputByte
  rw [if_neg (by omega), if_neg (by omega), if_neg (by omega), if_neg (by omega)]

/-- Witness for C10 at the concrete byte 0xC3. -/
theorem high_byte_ignored_witness :
    processInputByte ⟨InputState.NORMAL, [0x31]⟩ 0xC3 = (⟨InputState.NORMAL, [0x31]⟩, []) :=
  high_byte_ignored 0xC3 [0x31] (by decide) (by decide)

/-
Session state, mode notification, HELLO handling, snapshot, and the
vsync handler.
-/

/-- The emulator video modes the driver distinguishes (`VGAModes`
values referenced by `IsTextMode` / `IsGraphicsMode`; `M_ERROR` is the
initial `last_mode_`, `M_OTHER` stands for any remaining mode). -/
inductive VGAMode where
  | M_TEXT
  | M_HERC_TEXT
  | M_TANDY_TEXT
  | M_CGA2
  | M_CGA4
  | M_CGA16
  | M_EGA
  | M_VGA
  | M_LIN4
  | M_LIN8
  | M_LIN15
  | M_LIN16
  | M_LIN24
  | M_LIN32
  | M_ERROR
  | M_OTHER
  deriving DecidableEq, Repr

/-- `VGATextStream::IsTextMode`. -/
def isTextMode (m : VGAMode) : Bool :=
  match m with
  | VGAMode.M_TEXT => true
  | VGAMode.M_HERC_TEXT => true
  | VGAMode.M_TANDY_TEXT => true
  | _ => false

/-- `VGATextStream::IsGraphicsMode`. -/
def isGraphicsMode (m : VGAMode) : Bool :=
  match m with
  | VGAMode.M_CGA2 => true
  | VGAMode.M_CGA4 => true
  | VGAMode.M_CGA16 => true
  | VGAMode.M_EGA => true
  | VGAMode.M_VGA => true
  | VGAMode.M_LIN4 => true
  | VGAMode.M_LIN8 => true
  | VGAMode.M_LIN15 => true
  | VGAMode.M_LIN16 => true
  | VGAMode.M_LIN24 => true
  | VGAMode.M_LIN32 => true
  | _ => false

/-- The emulator-side collaborators read by the driver: the current
mode, the CRTC registers used by the snapshot (all `uint8_t`, so reads
are taken `% 256`), the display start, and byte-addressable text-plane
memory (`mem_readb`, returning a byte). -/
structure VGA where
  mode : VGAMode
  offset : Nat
  maximum_scan_line : Nat
  vertical_display_end : Nat
  display_start : Nat
  cursor_location_high : Nat
  cursor_location_low : Nat
  cursor_start : Nat
  mem : Nat → Nat

/-- The driver's session-relevant member state (the `VGATextStream`
fields touched by the vsync path and the HELLO handler; `connected`
models `client_fd_ >= 0`). -/
structure StreamState where
  enabled : Bool
  connected : Bool
  handshake_done : Bool
  client_wants_text : Bool
  client_wants_graphics : Bool
  client_wants_audio : Bool
  mode_notified : Bool
  force_redraw : Bool
  vsync_count : Nat
  last_mode : VGAMode
  cols : Nat
  rows : Nat
  prev_cols : Nat
  prev_rows : Nat
  current : Grid
  previous : Grid
  cursor : TextCursor
  prev_cursor : TextCursor
  ansi_attr : Nat
  ansi_row : Int
  ansi_col : Int

/-- Frame-level view of `VGATextStream::SendMessage`: one
`(channel, payload)` frame when a client is connected and the payload
fits in the 24-bit length field, nothing otherwise. -/
def sendMessage (connected : Bool) (channel : Nat) (payload : List Nat) : List Frame :=
  if connected = true ∧ payload.length ≤ 0xFFFFFF then [(channel % 256, payload)] else []

/-- `VGATextStream::SendControl`: prepend the control message type and
send on channel 0 (CONTROL). -/
def sendControl (connected : Bool) (msg : Nat) (data : List Nat) : List Frame :=
  sendMessage connected 0 (msg :: data)

/-- `VGATextStream::SendModeNotification`: nothing before the handshake;
MODE_TEXT (0x10) with big-endian cols and rows in text mode; and
MODE_UNSUPPORTED (0x12) in a graphics mode; sets `mode_notified_` when a
notification was produced. -/
def sendModeNotification (vga : VGA) (st : StreamState) : StreamState × List Frame :=
  if st.handshake_done = false then (st, [])
  else if isTextMode vga.mode then
    ({ st with mode_notified := true },
     sendControl st.connected 0x10
       [st.cols / 256 % 256, st.cols % 256, st.rows / 256 % 256, st.rows % 256])
  else if isGraphicsMode vga.mode then
    ({ st with mode_notified := true }, sendControl st.connected 0x12 [])
  else (st, [])

/-- One capability byte of `VGATextStream::HandleHello`'s switch:
TEXT_OUTPUT (0x01) sets `client_wants_text_`, the three graphics ids
(0x10/0x11/0x12) set `client_wants_graphics_`, the two audio ids
(0x20/0x21) set `client_wants_audio_`, everything else is skipped. -/
def helloStep (st : StreamState) (cap : Nat) : StreamState :=
  if cap = 0x01 then { st with client_wants_text := true }
  else if cap = 0x10 ∨ cap = 0x11 ∨ cap = 0x12 then { st with client_wants_graphics := true }
  else if cap = 0x20 ∨ cap = 0x21 then { st with client_wants_audio := true }
  else st

/-- `VGATextStream::HandleHello`: payloads shorter than 3 bytes are
ignored; otherwise the capability flags are reset, the at most
`payload[2]` capability bytes actually present (the loop stops at the
payload end) are folded through the switch, `handshake_done_` is set,
and a mode notification is sent. -/
def handleHello (vga : VGA) (payload : List Nat) (st : StreamState) :
    StreamState × List Frame :=
  if payload.length < 3 then (st, [])
  else
    sendModeNotification vga
      { ((payload.drop 3).take (payload.getD 2 0)).foldl helloStep
          { st with client_wants_text := false, client_wants_graphics := false,
                    client_wants_audio := false } with
        handshake_done := true }

/-- The `cols_` computation of `SnapshotTextBuffer` before clamping:
twice the offset register, or 80 when the register is zero. -/
def snapColsRaw (vga : VGA) : Nat :=
  if vga.offset % 256 > 0 then vga.offset % 256 * 2 else 80

/-- `cols_` after the clamp to `TEXTSTREAM_MAX_COLS = 132`. -/
def snapCols (vga : VGA) : Nat :=
  if snapColsRaw vga > 132 then 132 else snapColsRaw vga

/-- The `rows_` computation before clamping: the max-scanline field is
the low 5 bits of its register; zero means the 25-row default. -/
def snapRowsRaw (vga : VGA) : Nat :=
  if vga.maximum_scan_line % 32 > 0 then
    (vga.vertical_display_end % 256 + 1) / (vga.maximum_scan_line % 32 + 1)
  else 25

/-- `rows_` after the clamp to `TEXTSTREAM_MAX_ROWS = 60`. -/
def snapRowsClamped (vga : VGA) : Nat :=
  if snapRowsRaw vga > 60 then 60 else snapRowsRaw vga

/-- `rows_` after the final sanity correction: values below 24 are
treated as transient mode-switch artefacts and become 25. -/
def snapRows (vga : VGA) : Nat :=
  if snapRowsClamped vga < 24 then 25 else snapRowsClamped vga

/-- `VGATextStream::SnapshotTextBuffer`: compute `cols_` and `rows_`
(`snapCols` / `snapRows`), notify and force a redraw on a dimension
change, and read the `rows × cols` cells from the text plane at
`0xB8000 + display_start*2`. -/
def snapshotTextBuffer (vga : VGA) (st : StreamState) : StreamState × List Frame :=
  let cols := snapCols vga
  let rows := snapRows vga
  let st1 := { st with cols := cols, rows := rows }
  let stepped : StreamState × List Frame :=
    if cols ≠ st1.prev_cols ∨ rows ≠ st1.prev_rows then
      sendModeNotification vga
        { st1 with force_redraw := true, prev_cols := cols, prev_rows := rows }
    else (st1, [])
  let base := 0xB8000 + vga.display_start * 2
  ({ stepped.1 with current := fun r c =>
      if r < rows ∧ c < cols then
        ⟨vga.mem (base + (r * cols + c) * 2) % 256, vga.mem (base + (r * cols + c) * 2 + 1) % 256⟩
      else stepped.1.current r c },
   stepped.2)

/-- `VGATextStream::SnapshotCursor`: cursor position from the two CRTC
cursor-location registers, split by `cols_`; visibility is bit 5 of the
cursor-start register being clear. -/
def snapshotCursor (vga : VGA) (st : StreamState) : StreamState :=
  { st with cursor :=
      { row := if st.cols > 0 then
                 (vga.cursor_location_high % 256 * 256 + vga.cursor_location_low % 256) / st.cols
               else 0
        col := if st.cols > 0 then
                 (vga.cursor_location_high % 256 * 256 + vga.cursor_location_low % 256) % st.cols
               else 0
        visible := vga.cursor_start / 32 % 2 = 0 } }

/-- `VGATextStream::GenerateTextOutput` acting on the member state:
reads and clears `force_redraw_`, renders into a fresh buffer, flushes
it, and copies `current_` / `cursor_` into `previous_` /
`prev_cursor_`, updating the render sentinels. -/
def generateAndFlush (st : StreamState) : StreamState × List Frame :=
  ({ st with
      force_redraw := false
      previous := st.current
      prev_cursor := st.cursor
      ansi_attr := (generateTextOutput st.rows st.cols st.current st.previous st.cursor
        st.prev_cursor st.force_redraw st.ansi_attr st.ansi_row st.ansi_col).attr
      ansi_row := (generateTextOutput st.rows st.cols st.current st.previous st.cursor
        st.prev_cursor st.force_redraw st.ansi_attr st.ansi_row st.ansi_col).arow
      ansi_col := (generateTextOutput st.rows st.cols st.current st.previous st.cursor
        st.prev_cursor st.force_redraw st.ansi_attr st.ansi_row st.ansi_col).acol },
   flushTextOutput st.connected
     (generateTextOutput st.rows st.cols st.current st.previous st.cursor
       st.prev_cursor st.force_redraw st.ansi_attr st.ansi_row st.ansi_col).buf)

/-- `VGATextStream::OnVSync`: nothing unless enabled, connected, and the
handshake is done; then count the tick, notify on a mode change (forcing
a redraw), and in text mode (when the client wants text) schedule the
periodic full refresh, snapshot the buffer and cursor, and render. -/
def onVSync (vga : VGA) (st : StreamState) : StreamState × List Frame :=
  if !st.enabled || !st.connected || !st.handshake_done then (st, [])
  else
    let st1 := { st with vsync_count := st.vsync_count + 1 }
    let modeStep : StreamState × List Frame :=
      if vga.mode ≠ st1.last_mode then
        let stepped := sendModeNotification vga
          { st1 with last_mode := vga.mode, mode_notified := false }
        ({ stepped.1 with force_redraw := true }, stepped.2)
      else (st1, [])
    if isTextMode vga.mode && modeStep.1.client_wants_text then
      let st2 := if modeStep.1.vsync_count % 120 = 0 then
                   { modeStep.1 with force_redraw := true }
                 else modeStep.1
      let snapStep := snapshotTextBuffer vga st2
      let st3 := snapshotCursor vga snapStep.1
      let genStep := generateAndFlush st3
      (genStep.1, modeStep.2 ++ snapStep.2 ++ genStep.2)
    else (modeStep.1, modeStep.2)

/-- C2: handshake gating.  In any state with `handshake_done` false,
`OnVSync` emits no frame at all (in particular no TEXT_OUT frame) and
`SendModeNotification` emits nothing (no MODE_TEXT / MODE_UNSUPPORTED
frame), whatever the emulator state. -/
theorem handshake_gating (vga : VGA) (st : StreamState) (h : st.handshake_done = false) :
    (onVSync vga st).2 = [] ∧ (sendModeNotification vga st).2 = [] := by
  constructor
  · unfold onVSync
    rw [if_pos (by rw [h]; simp)]
  · unfold sendModeNotification
    rw [if_pos h]

/-- A concrete emulator state: 80×25 colour text mode, blank text
plane. -/
def vga0 : VGA :=
  { mode := VGAMode.M_TEXT, offset := 40, maximum_scan_line := 15,
    vertical_display_end := 143, display_start := 0,
    cursor_location_high := 0, cursor_location_low := 0, cursor_start := 0,
    mem := fun a => if a % 2 = 0 then 0x20 else 0x07 }

/-- A concrete session state: connected but with the handshake still
pending. -/
def st0 : StreamState :=
  { enabled := true, connected := true, handshake_done := false,
    client_wants_text := true, client_wants_graphics := false, client_wants_audio := false,
    mode_notified := false, force_redraw := true, vsync_count := 0,
    last_mode := VGAMode.M_ERROR, cols := 80, rows := 25, prev_cols := 0, prev_rows := 0,
    current := blankGrid, previous := blankGrid,
    cursor := ⟨0, 0, true⟩, prev_cursor := ⟨0, 0, true⟩,
    ansi_attr := 0xFF, ansi_row := -1, ansi_col := -1 }

/-- Witness for C2 at the concrete pre-handshake state. -/
theorem handshake_gating_witness :
    (onVSync vga0 st0).2 = [] ∧ (sendModeNotification vga0 st0).2 = [] :=
  handshake_gating vga0 st0 rfl

/-- `SendModeNotification` never changes the capability flags. -/
theorem smn_text (vga : VGA) (st : StreamState) :
    (sendModeNotification vga st).1.client_wants_text = st.client_wants_text := by
  unfold sendModeNotification
  split
  · rfl
  split
  · rfl
  split
  · rfl
  · rfl

theorem smn_graphics (vga : VGA) (st : StreamState) :
    (sendModeNotification vga st).1.client_wants_graphics = st.client_wants_graphics := by
  unfold sendModeNotification
  split
  · rfl
  split
  · rfl
  split
  · rfl
  · rfl

theorem smn_audio (vga : VGA) (st : StreamState) :
    (sendModeNotification vga st).1.client_wants_audio = st.client_wants_audio := by
  unfold sendModeNotification
  split
  · rfl
  split
  · rfl
  split
  · rfl
  · rfl

/-- `SendModeNotification` never changes the snapshot dimensions. -/
theorem smn_cols (vga : VGA) (st : StreamState) :
    (sendModeNotification vga st).1.cols = st.cols := by
  unfold sendModeNotification
  split
  · rfl
  split
  · rfl
  split
  · rfl
  · rfl

theorem smn_rows (vga : VGA) (st : StreamState) :
    (sendModeNotification vga st).1.rows = st.rows := by
  unfold sendModeNotification
  split
  · rfl
  split
  · rfl
  split
  · rfl
  · rfl

/-- The flags produced by folding capability bytes through the HELLO
switch: each `client_wants_*` flag ends up set iff it started set or a
matching capability id occurs in the list; `handshake_done` is never
touched by the fold. -/
theorem helloStep_flags (st : StreamState) (a : Nat) :
    (helloStep st a).client_wants_text = (st.client_wants_text || (a == 0x01)) ∧
    (helloStep st a).client_wants_graphics =
      (st.client_wants_graphics || (a == 0x10 || a == 0x11 || a == 0x12)) ∧
    (helloStep st a).client_wants_audio =
      (st.client_wants_audio || (a == 0x20 || a == 0x21)) ∧
    (helloStep st a).handshake_done = st.handshake_done := by
  unfold helloStep
  by_cases h1 : a = 0x01
  · subst h1
    simp
  rw [if_neg h1]
  by_cases h2 : a = 0x10 ∨ a = 0x11 ∨ a = 0x12
  · rw [if_pos h2]
    rcases h2 with h | h | h <;> subst h <;> simp
  rw [if_neg h2]
  push_neg at h2
  by_cases h3 : a = 0x20 ∨ a = 0x21
  · rw [if_pos h3]
    rcases h3 with h | h <;> subst h <;> simp
  rw [if_neg h3]
  push_neg at h3
  obtain ⟨g1, g2, g3⟩ := h2
  obtain ⟨a1, a2⟩ := h3
  simp [h1, g1, g2, g3, a1, a2]

theorem helloFold_flags (l : List Nat) (st : StreamState) :
    ((l.foldl helloStep st).client_wants_text =
      (st.client_wants_text || l.any (fun c => c == 0x01))) ∧
    ((l.foldl helloStep st).client_wants_graphics =
      (st.client_wants_graphics || l.any (fun c => c == 0x10 || c == 0x11 || c == 0x12))) ∧
    ((l.foldl helloStep st).client_wants_audio =
      (st.client_wants_audio || l.any (fun c => c == 0x20 || c == 0x21))) ∧
    (l.foldl helloStep st).handshake_done = st.handshake_done := by
  induction l generalizing st with
  | nil => simp
  | cons a l ih =>
    obtain ⟨t1, t2, t3, t4⟩ := helloStep_flags st a
    obtain ⟨s1, s2, s3, s4⟩ := ih (helloStep st a)
    simp only [List.foldl_cons, List.any_cons]
    exact ⟨by rw [s1, t1, Bool.or_assoc], by rw [s2, t2, Bool.or_assoc],
           by rw [s3, t3, Bool.or_assoc], by rw [s4, t4]⟩

/-- C5: HELLO capability parsing.  For a payload of at least 3 bytes,
after `HandleHello` each `client_wants_*` flag reflects exactly whether
a matching capability id occurs among the capability bytes actually
present (at most `payload[2]` of them, stopping at the payload end;
unknown ids are skipped); a payload shorter than 3 bytes changes no
session state, emits nothing, and does not terminate the session. -/
theorem hello_capability_parsing (vga : VGA) (st : StreamState) (payload : List Nat) :
    (3 ≤ payload.length →
      ((handleHello vga payload st).1.client_wants_text =
        ((payload.drop 3).take (payload.getD 2 0)).any (fun c => c == 0x01)) ∧
      ((handleHello vga payload st).1.client_wants_graphics =
        ((payload.drop 3).take (payload.getD 2 0)).any
          (fun c => c == 0x10 || c == 0x11 || c == 0x12)) ∧
      ((handleHello vga payload st).1.client_wants_audio =
        ((payload.drop 3).take (payload.getD 2 0)).any (fun c => c == 0x20 || c == 0x21))) ∧
    (payload.length < 3 → handleHello vga payload st = (st, [])) := by
  constructor
  · intro h
    unfold handleHello
    rw [if_neg (show ¬ payload.length < 3 by omega)]
    obtain ⟨f1, f2, f3, -⟩ := helloFold_flags ((payload.drop 3).take (payload.getD 2 0))
      { st with client_wants_text := false, client_wants_graphics := false,
                client_wants_audio := false }
    refine ⟨?_, ?_, ?_⟩
    · rw [smn_text]
      simpa using f1
    · rw [smn_graphics]
      simpa using f2
    · rw [smn_audio]
      simpa using f3
  · intro h
    unfold handleHello
    rw [if_pos h]

/-- A concrete client HELLO payload: version 0x0001, three capability
bytes, of which 0x99 is unknown. -/
def helloPayload : List Nat := [0x00, 0x01, 0x03, 0x01, 0x99, 0x20]

/-- Witness for C5: the concrete payload sets the text flag, and the
truncated 2-byte payload is ignored entirely. -/
theorem hello_capability_parsing_witness :
    ((handleHello vga0 helloPayload st0).1.client_wants_text =
      ((helloPayload.drop 3).take (helloPayload.getD 2 0)).any (fun c => c == 0x01)) ∧
    handleHello vga0 [0x00, 0x01] st0 = (st0, []) :=
  ⟨((hello_capability_parsing vga0 st0 helloPayload).1 (by decide)).1,
   (hello_capability_parsing vga0 st0 [0x00, 0x01]).2 (by decide)⟩

/-- The state coming out of `SnapshotTextBuffer` carries exactly the
computed dimensions. -/
theorem snapshotTextBuffer_dims (vga : VGA) (st : StreamState) :
    (snapshotTextBuffer vga st).1.cols = snapCols vga ∧
    (snapshotTextBuffer vga st).1.rows = snapRows vga := by
  unfold snapshotTextBuffer
  dsimp only
  split
  · exact ⟨smn_cols vga _, smn_rows vga _⟩
  · exact ⟨rfl, rfl⟩

/-- C6: dimension clamp invariant.  After every `SnapshotTextBuffer`
call, `1 ≤ cols ≤ 132` and `24 ≤ rows ≤ 60`; moreover `cols` defaults
to 80 when the offset register is zero and `rows` defaults to 25 when
the max-scanline field is zero. -/
theorem dimension_clamp (vga : VGA) (st : StreamState) :
    1 ≤ (snapshotTextBuffer vga st).1.cols ∧
    (snapshotTextBuffer vga st).1.cols ≤ 132 ∧
    24 ≤ (snapshotTextBuffer vga st).1.rows ∧
    (snapshotTextBuffer vga st).1.rows ≤ 60 ∧
    (vga.offset % 256 = 0 → (snapshotTextBuffer vga st).1.cols = 80) ∧
    (vga.maximum_scan_line % 32 = 0 → (snapshotTextBuffer vga st).1.rows = 25) := by
  obtain ⟨hc, hr⟩ := snapshotTextBuffer_dims vga st
  rw [hc, hr]
  unfold snapRows snapRowsClamped snapRowsRaw snapCols snapColsRaw
  generalize (vga.vertical_display_end % 256 + 1) / (vga.maximum_scan_line % 32 + 1) = q
  refine ⟨?_, ?_, ?_, ?_, fun h0 => ?_, fun h1 => ?_⟩ <;> split_ifs <;> omega

/-- Witness for C6: the concrete 80×25 state satisfies the bounds, and
a zero offset register yields the 80-column default. -/
theorem dimension_clamp_witness :
    24 ≤ (snapshotTextBuffer vga0 st0).1.rows ∧
    (snapshotTextBuffer { vga0 with offset := 0 } st0).1.cols = 80 :=
  ⟨(dimension_clamp vga0 st0).2.2.1,
   (dimension_clamp { vga0 with offset := 0 } st0).2.2.2.2.1 rfl⟩

end TextStream
